import Mathlib

/-!
Shallow embedding of the `duckdb-sql-practice` helper layer
(`src/config.py`, `src/db_utils.py`, `src/setup_database.py`).

The embedded database engine (duckdb), the filesystem and the pandas
rendering routine are external to the repository; they are modelled as an
oracle record `Env`.  Each Python helper becomes a Lean function returning
its result (`Except Err _`, exceptions becoming `Except.error`) together
with the list of observable events it performs, in order: opening and
closing a connection, executing SQL, opening a file, printing a line.
Python `with`/`try-finally` blocks become explicit trace construction that
appends the `close` event on every exit path, exactly as the source scopes
do.
-/

/-- A scalar value in a result row (the dynamically-typed cells Python sees). -/
inductive Value where
  | int (i : Int)
  | str (s : String)
  | null
deriving Repr, DecidableEq

/-- Python `str()` of a scalar value as used in the loader's count report. -/
def valueStr : Value → String
  | Value.int i => toString i
  | Value.str s => s
  | Value.null => "None"

/-- A tabular query result: ordered rows aligned to named columns
(models both a `fetchall` list plus description and a pandas DataFrame). -/
structure Table where
  columns : List String
  rows : List (List Value)
deriving Repr, DecidableEq

/-- A dynamically-typed configuration value, as stored in the Python dict
`DATABASE_CONFIG` in `config.py`. -/
inductive ConfigVal where
  | bool (b : Bool)
  | int (n : Int)
  | str (s : String)
  | dict (entries : List (String × ConfigVal))
deriving Repr

/-- The error taxonomy of the spec: engine query failures, file failures,
connection failures, plus Python `IndexError` from tuple indexing. -/
inductive Err where
  | queryError (msg : String)
  | fileError (msg : String)
  | connectionError (msg : String)
  | indexError (msg : String)
deriving Repr, DecidableEq

/-- Python `str(e)` of an exception, used in the loader's diagnostic print. -/
def errMsg : Err → String
  | Err.queryError m => m
  | Err.fileError m => m
  | Err.connectionError m => m
  | Err.indexError m => m

/-- An observable event performed by the helper layer, in program order. -/
inductive Event where
  | connect (db : String) (readOnly : ConfigVal) (config : ConfigVal)
  | close
  | exec (sql : String) (params : Option (List Value))
  | openFile (path : String)
  | print (line : String)
deriving Repr

/-- The external world: the embedded engine (`conn.execute(...)` plus
materialization), the filesystem (`open(path).read()`), and the pandas
renderer (`DataFrame.to_string(index=False)`).  All three are third-party
code the repository delegates to. -/
structure Env where
  runQuery : String → Option (List Value) → Except Err Table
  readFile : String → Except Err String
  renderTable : Table → String

/-- `config.py` line 5: `DATABASE_PATH = 'hr_database.duckdb'`. -/
def DATABASE_PATH : String := "hr_database.duckdb"

/-- `config.py` lines 8-14: the static configuration dict. -/
def DATABASE_CONFIG : List (String × ConfigVal) :=
  [("read_only", ConfigVal.bool false),
   ("config", ConfigVal.dict
      [("memory_limit", ConfigVal.str "2GB"), ("threads", ConfigVal.int 4)])]

/-- Python `dict` lookup returning `none` for a missing key;
`d.get(k, default)` is `(dictGet d k).getD default`. -/
def dictGet (d : List (String × ConfigVal)) (key : String) : Option ConfigVal :=
  match d with
  | [] => none
  | (k, v) :: rest => if k == key then some v else dictGet rest key

/-- `db_utils.get_connection` (lines 11-22): opens a connection with
`database=DATABASE_PATH`, `read_only=cfg.get('read_only', False)`,
`config=cfg.get('config', {})`.  The module-level `DATABASE_CONFIG` is
passed explicitly; the observable effect is the `connect` event. -/
def get_connection (cfg : List (String × ConfigVal)) : Event :=
  Event.connect DATABASE_PATH
    ((dictGet cfg "read_only").getD (ConfigVal.bool false))
    ((dictGet cfg "config").getD (ConfigVal.dict []))

/-- Python truthiness of the `params` argument: `None` and the empty tuple
are falsy, a nonempty tuple is truthy (`if params:` in lines 36 and 54). -/
def paramsTruthy : Option (List Value) → Bool
  | none => false
  | some ps => !ps.isEmpty

/-- The parameter binding the engine actually receives: with a falsy
`params` the query is executed without parameter binding. -/
def boundParams (params : Option (List Value)) : Option (List Value) :=
  if paramsTruthy params then params else none

/-- `db_utils.execute_query` (lines 24-40): `with get_connection() as conn`,
`conn.execute(query[, params]).fetchall()`; the `with` block closes the
connection on all exit paths, including a raising query. -/
def execute_query (env : Env) (query : String) (params : Option (List Value)) :
    Except Err (List (List Value)) × List Event :=
  if paramsTruthy params then
    match env.runQuery query params with
    | Except.ok t =>
        (Except.ok t.rows,
         [get_connection DATABASE_CONFIG, Event.exec query params, Event.close])
    | Except.error e =>
        (Except.error e,
         [get_connection DATABASE_CONFIG, Event.exec query params, Event.close])
  else
    match env.runQuery query none with
    | Except.ok t =>
        (Except.ok t.rows,
         [get_connection DATABASE_CONFIG, Event.exec query none, Event.close])
    | Except.error e =>
        (Except.error e,
         [get_connection DATABASE_CONFIG, Event.exec query none, Event.close])

/-- `db_utils.query_to_dataframe` (lines 42-58): same scoping as
`execute_query` but materializes via `.df()` into a DataFrame
(here: the full `Table`, columns included). -/
def query_to_dataframe (env : Env) (query : String) (params : Option (List Value)) :
    Except Err Table × List Event :=
  if paramsTruthy params then
    match env.runQuery query params with
    | Except.ok t =>
        (Except.ok t,
         [get_connection DATABASE_CONFIG, Event.exec query params, Event.close])
    | Except.error e =>
        (Except.error e,
         [get_connection DATABASE_CONFIG, Event.exec query params, Event.close])
  else
    match env.runQuery query none with
    | Except.ok t =>
        (Except.ok t,
         [get_connection DATABASE_CONFIG, Event.exec query none, Event.close])
    | Except.error e =>
        (Except.error e,
         [get_connection DATABASE_CONFIG, Event.exec query none, Event.close])

/-- `df.head(n)` for a nonnegative `n`: the first `n` rows. -/
def tableHead (t : Table) (n : Nat) : Table :=
  { columns := t.columns, rows := t.rows.take n }

/-- Lines 104-106 of `db_utils.py`: `if title:` (None and `""` are falsy)
prints `f"\n{title}"` and `"=" * len(title)`. -/
def titleLines (title : Option String) : List String :=
  match title with
  | none => []
  | some t =>
      if t == "" then []
      else ["\n" ++ t, String.mk (List.replicate t.length '=')]

/-- Lines 109-114 of `db_utils.py`: the lines printed for the fetched
DataFrame `df`: if `len(df) > limit`, a "Showing first" header, the
rendering of `df.head(limit)`, and the `"... (k more rows)"` message;
otherwise the rendering of the whole `df`. -/
def formatBody (render : Table → String) (df : Table) (limit : Nat) : List String :=
  let n := df.rows.length
  if n > limit then
    ["Showing first " ++ toString limit ++ " of " ++ toString n ++ " rows:",
     render (tableHead df limit),
     "... (" ++ toString (n - limit) ++ " more rows)"]
  else
    [render df]

/-- `db_utils.print_query_results` (lines 95-115): prints the title block,
fetches the DataFrame (one scoped connection), prints the body and a
trailing empty line; a query failure propagates before any row printing. -/
def print_query_results (env : Env) (query : String) (title : Option String)
    (limit : Nat) : Except Err Unit × List Event :=
  let tevs := (titleLines title).map Event.print
  match query_to_dataframe env query none with
  | (Except.error e, evs) => (Except.error e, tevs ++ evs)
  | (Except.ok df, evs) =>
      (Except.ok (),
       tevs ++ evs ++ (formatBody env.renderTable df limit).map Event.print
         ++ [Event.print ""])

/-- The printing stage of `print_query_results` as a transformer on an
explicit state (the fetched DataFrame plus the output stream), to express
its frame: lines 104-115 only append to the output and never assign to
the DataFrame. -/
structure PrintState where
  df : Table
  out : List String
deriving Repr, DecidableEq

/-- Lines 104-115 of `db_utils.py` acting on the explicit state: append
the title block, the body for the state's DataFrame, and the trailing
empty line to the output stream. -/
def printResultsOnState (render : Table → String) (title : Option String)
    (limit : Nat) (s : PrintState) : PrintState :=
  { df := s.df,
    out := s.out ++ titleLines title ++ formatBody render s.df limit ++ [""] }

/-- The hard-coded table list shared by `table_info` (db_utils line 80)
and the loader's verification loop (setup_database line 51). -/
def hrTables : List String :=
  ["regions", "countries", "locations", "departments", "jobs", "employees",
   "dependents"]

/-- `result[0] if result is not None else 0` applied to a `fetchone`
outcome: `None` (no row) gives `0`; an empty row tuple raises IndexError. -/
def fetchoneFirst (t : Table) : Except Err Value :=
  match t.rows with
  | [] => Except.ok (Value.int 0)
  | r :: _ =>
      match r with
      | [] => Except.error (Err.indexError "tuple index out of range")
      | v :: _ => Except.ok v

/-- `[col[0] for col in columns]` over fetched DESCRIBE rows; an empty
row tuple raises IndexError. -/
def firstCells : List (List Value) → Except Err (List Value)
  | [] => Except.ok []
  | r :: rs =>
      match r with
      | [] => Except.error (Err.indexError "tuple index out of range")
      | v :: _ =>
          match firstCells rs with
          | Except.error e => Except.error e
          | Except.ok vs => Except.ok (v :: vs)

/-- The per-table body of `db_utils.table_info` (lines 84-91): count query,
`fetchone` extraction, DESCRIBE query, column-name extraction; the first
failure aborts the loop and propagates. -/
def tableInfoLoop (env : Env) :
    List String → Except Err (List (String × Value × List Value)) × List Event
  | [] => (Except.ok [], [])
  | t :: ts =>
      let cq := "SELECT COUNT(*) FROM " ++ t
      match env.runQuery cq none with
      | Except.error e => (Except.error e, [Event.exec cq none])
      | Except.ok ct =>
          match fetchoneFirst ct with
          | Except.error e => (Except.error e, [Event.exec cq none])
          | Except.ok c =>
              let dq := "DESCRIBE " ++ t
              match env.runQuery dq none with
              | Except.error e =>
                  (Except.error e, [Event.exec cq none, Event.exec dq none])
              | Except.ok dt =>
                  match firstCells dt.rows with
                  | Except.error e =>
                      (Except.error e, [Event.exec cq none, Event.exec dq none])
                  | Except.ok cols =>
                      match tableInfoLoop env ts with
                      | (Except.error e, evs) =>
                          (Except.error e,
                           Event.exec cq none :: Event.exec dq none :: evs)
                      | (Except.ok rest, evs) =>
                          (Except.ok ((t, c, cols) :: rest),
                           Event.exec cq none :: Event.exec dq none :: evs)

/-- `db_utils.table_info` (lines 78-93): one `with`-scoped connection
around the whole loop; the connection closes on every exit path. -/
def table_info (env : Env) :
    Except Err (List (String × Value × List Value)) × List Event :=
  match tableInfoLoop env hrTables with
  | (r, evs) => (r, get_connection DATABASE_CONFIG :: evs ++ [Event.close])

/-- `setup_database.py` line 23: `project_root / 'data' / 'schema.sql'`
(relative to the script's directory). -/
def schema_file : String := "data/schema.sql"

/-- `setup_database.py` line 24: `project_root / 'data' / 'data.sql'`. -/
def data_file : String := "data/data.sql"

/-- The verification loop of `setup_database` (lines 53-56): per table a
count query, `fetchone` extraction and a report line; the first failure
aborts the loop and propagates. -/
def verifyLoop (env : Env) : List String → Except Err Unit × List Event
  | [] => (Except.ok (), [])
  | t :: ts =>
      let q := "SELECT COUNT(*) FROM " ++ t
      match env.runQuery q none with
      | Except.error e => (Except.error e, [Event.exec q none])
      | Except.ok tab =>
          match fetchoneFirst tab with
          | Except.error e => (Except.error e, [Event.exec q none])
          | Except.ok c =>
              match verifyLoop env ts with
              | (r, evs) =>
                  (r, Event.exec q none ::
                      Event.print ("  " ++ t ++ ": " ++ valueStr c ++ " records")
                      :: evs)

/-- The `try:` body of `setup_database` (lines 33-56): progress prints,
schema file read and execution, data file read and execution, completion
banner, verification loop.  The first failure aborts the body. -/
def setupTry (env : Env) (path : String) : Except Err Unit × List Event :=
  let evs0 := [Event.print ("Setting up HR database at: " ++ path),
               Event.print "Creating tables..."]
  match env.readFile schema_file with
  | Except.error e => (Except.error e, evs0 ++ [Event.openFile schema_file])
  | Except.ok schema_sql =>
      let evs1 := evs0 ++ [Event.openFile schema_file]
      match env.runQuery schema_sql none with
      | Except.error e => (Except.error e, evs1 ++ [Event.exec schema_sql none])
      | Except.ok _ =>
          let evs2 := evs1 ++
            [Event.exec schema_sql none,
             Event.print "✓ Tables created successfully",
             Event.print "Loading data..."]
          match env.readFile data_file with
          | Except.error e => (Except.error e, evs2 ++ [Event.openFile data_file])
          | Except.ok data_sql =>
              let evs3 := evs2 ++ [Event.openFile data_file]
              match env.runQuery data_sql none with
              | Except.error e =>
                  (Except.error e, evs3 ++ [Event.exec data_sql none])
              | Except.ok _ =>
                  let evs4 := evs3 ++
                    [Event.exec data_sql none,
                     Event.print "✓ Data loaded successfully",
                     Event.print "\nDatabase setup complete! Record counts:"]
                  match verifyLoop env hrTables with
                  | (r, evs) => (r, evs4 ++ evs)

/-- `setup_database.setup_database` (lines 11-62): resolves the target
path (`DATABASE_PATH` when the argument is `None`), opens the connection
with the configured settings BEFORE the `try` block, runs the body; on
failure prints the diagnostic and re-raises; the `finally` closes the
connection on every exit path. -/
def setup_database (env : Env) (db_path : Option String) :
    Except Err Unit × List Event :=
  let path := db_path.getD DATABASE_PATH
  let connEv := Event.connect path
    ((dictGet DATABASE_CONFIG "read_only").getD (ConfigVal.bool false))
    ((dictGet DATABASE_CONFIG "config").getD (ConfigVal.dict []))
  match setupTry env path with
  | (Except.ok _, evs) => (Except.ok (), connEv :: evs ++ [Event.close])
  | (Except.error e, evs) =>
      (Except.error e,
       connEv :: evs ++
         [Event.print ("Error setting up database: " ++ errMsg e), Event.close])

/-- Connection-lifecycle projection of a trace: `opened` for each
`connect` event, `closed` for each `close` event, other events dropped. -/
inductive ConnTag where
  | opened
  | closed
deriving Repr, DecidableEq

/-- The subsequence of connection events of a trace, as tags. -/
def connTags (evs : List Event) : List ConnTag :=
  evs.filterMap fun e =>
    match e with
    | Event.connect _ _ _ => some ConnTag.opened
    | Event.close => some ConnTag.closed
    | _ => none

/-- Whether an event is a SQL execution against the engine. -/
def isExecEvent : Event → Bool
  | Event.exec _ _ => true
  | _ => false

/-! Concrete environments used as verification inputs. -/

/-- A three-row sample result. -/
def sampleTable : Table :=
  { columns := ["a"],
    rows := [[Value.int 1], [Value.int 2], [Value.int 3]] }

/-- An environment whose engine answers every query with `sampleTable`
and whose filesystem serves distinct schema and data texts. -/
def envLoader : Env :=
  { runQuery := fun _ _ => Except.ok sampleTable,
    readFile := fun p =>
      if p == schema_file then Except.ok "CREATE TABLE regions (a INT);"
      else Except.ok "INSERT INTO regions VALUES (1);",
    renderTable := fun t => toString t.rows.length }

/-- An environment whose engine rejects every query with a QueryError
(as it does for a reference to a non-existent column). -/
def envQueryErr : Env :=
  { runQuery := fun _ _ =>
      Except.error (Err.queryError "column nope does not exist"),
    readFile := fun _ => Except.ok "x",
    renderTable := fun _ => "" }

/-- An environment whose filesystem refuses every read (unreadable
schema file) while the engine itself works. -/
def envSchemaUnreadable : Env :=
  { runQuery := fun _ _ => Except.ok sampleTable,
    readFile := fun _ =>
      Except.error (Err.fileError "Permission denied: data/schema.sql"),
    renderTable := fun _ => "" }

/-! Helper lemmas about connection-event projections of traces. -/

theorem connTags_append (a b : List Event) :
    connTags (a ++ b) = connTags a ++ connTags b := by
  simp [connTags, List.filterMap_append]

theorem connTags_map_print (l : List String) :
    connTags (l.map Event.print) = [] := by
  induction l with
  | nil => rfl
  | cons h t ih => simp [connTags, List.filterMap_cons]

theorem connTags_verifyLoop (env : Env) (ts : List String) :
    connTags (verifyLoop env ts).2 = [] := by
  induction ts with
  | nil => rfl
  | cons t rest ih =>
      cases hq : env.runQuery ("SELECT COUNT(*) FROM " ++ t) none with
      | error e => simp [verifyLoop, hq, connTags]
      | ok tab =>
          cases hf : fetchoneFirst tab with
          | error e => simp [verifyLoop, hq, hf, connTags]
          | ok c =>
              rcases hv : verifyLoop env rest with ⟨r, evs⟩
              rw [hv] at ih
              simp only [verifyLoop, hq, hf, hv]
              simpa [connTags, List.filterMap_cons] using ih

theorem connTags_tableInfoLoop (env : Env) (ts : List String) :
    connTags (tableInfoLoop env ts).2 = [] := by
  induction ts with
  | nil => rfl
  | cons t rest ih =>
      cases hq : env.runQuery ("SELECT COUNT(*) FROM " ++ t) none with
      | error e => simp [tableInfoLoop, hq, connTags]
      | ok ct =>
          cases hf : fetchoneFirst ct with
          | error e => simp [tableInfoLoop, hq, hf, connTags]
          | ok c =>
              cases hd : env.runQuery ("DESCRIBE " ++ t) none with
              | error e => simp [tableInfoLoop, hq, hf, hd, connTags]
              | ok dt =>
                  cases hc : firstCells dt.rows with
                  | error e => simp [tableInfoLoop, hq, hf, hd, hc, connTags]
                  | ok cols =>
                      rcases hv : tableInfoLoop env rest with ⟨r, evs⟩
                      rw [hv] at ih
                      cases r with
                      | error e =>
                          simp only [tableInfoLoop, hq, hf, hd, hc, hv]
                          simpa [connTags, List.filterMap_cons] using ih
                      | ok l =>
                          simp only [tableInfoLoop, hq, hf, hd, hc, hv]
                          simpa [connTags, List.filterMap_cons] using ih

theorem connTags_setupTry (env : Env) (path : String) :
    connTags (setupTry env path).2 = [] := by
  cases hs : env.readFile schema_file with
  | error e => simp [setupTry, hs, connTags]
  | ok schema_sql =>
      cases hq1 : env.runQuery schema_sql none with
      | error e => simp [setupTry, hs, hq1, connTags]
      | ok t1 =>
          cases hd : env.readFile data_file with
          | error e => simp [setupTry, hs, hq1, hd, connTags]
          | ok data_sql =>
              cases hq2 : env.runQuery data_sql none with
              | error e => simp [setupTry, hs, hq1, hd, hq2, connTags]
              | ok t2 =>
                  rcases hv : verifyLoop env hrTables with ⟨r, evs⟩
                  have h := connTags_verifyLoop env hrTables
                  rw [hv] at h
                  simp only [setupTry, hs, hq1, hd, hq2, hv]
                  simpa [connTags, List.filterMap_cons, List.filterMap_append]
                    using h

theorem connTags_nil : connTags [] = [] := rfl

theorem connTags_cons_connect (d : String) (ro c : ConfigVal) (l : List Event) :
    connTags (Event.connect d ro c :: l) = ConnTag.opened :: connTags l := rfl

theorem connTags_cons_close (l : List Event) :
    connTags (Event.close :: l) = ConnTag.closed :: connTags l := rfl

theorem connTags_cons_exec (q : String) (p : Option (List Value))
    (l : List Event) : connTags (Event.exec q p :: l) = connTags l := rfl

theorem connTags_cons_print (s : String) (l : List Event) :
    connTags (Event.print s :: l) = connTags l := rfl

theorem connTags_cons_openFile (p : String) (l : List Event) :
    connTags (Event.openFile p :: l) = connTags l := rfl

theorem execute_query_eq (env : Env) (q : String) (p : Option (List Value)) :
    execute_query env q p =
      (Except.map Table.rows (env.runQuery q (boundParams p)),
       [get_connection DATABASE_CONFIG, Event.exec q (boundParams p),
        Event.close]) := by
  cases ht : paramsTruthy p with
  | true =>
      cases hr : env.runQuery q p with
      | ok t => simp [execute_query, boundParams, ht, hr, Except.map]
      | error e => simp [execute_query, boundParams, ht, hr, Except.map]
  | false =>
      cases hr : env.runQuery q none with
      | ok t => simp [execute_query, boundParams, ht, hr, Except.map]
      | error e => simp [execute_query, boundParams, ht, hr, Except.map]

theorem query_to_dataframe_eq (env : Env) (q : String) (p : Option (List Value)) :
    query_to_dataframe env q p =
      (env.runQuery q (boundParams p),
       [get_connection DATABASE_CONFIG, Event.exec q (boundParams p),
        Event.close]) := by
  cases ht : paramsTruthy p with
  | true =>
      cases hr : env.runQuery q p with
      | ok t => simp [query_to_dataframe, boundParams, ht, hr]
      | error e => simp [query_to_dataframe, boundParams, ht, hr]
  | false =>
      cases hr : env.runQuery q none with
      | ok t => simp [query_to_dataframe, boundParams, ht, hr]
      | error e => simp [query_to_dataframe, boundParams, ht, hr]

theorem query_to_dataframe_none (env : Env) (q : String) :
    query_to_dataframe env q none =
      (env.runQuery q none,
       [get_connection DATABASE_CONFIG, Event.exec q none, Event.close]) := by
  cases hr : env.runQuery q none with
  | ok t => simp [query_to_dataframe, paramsTruthy, hr]
  | error e => simp [query_to_dataframe, paramsTruthy, hr]

/-- C4: for every SQL text and optional positional parameters, each query
helper opens one connection, executes the text exactly once (with the
Python-truthiness-resolved parameter binding), returns the engine's fully
materialized result (`fetchall` rows, resp. the DataFrame with columns),
and the trace ends with `close` on both the success and the failure path. -/
theorem execute_helpers_contract (env : Env) (q : String)
    (p : Option (List Value)) :
    execute_query env q p =
      (Except.map Table.rows (env.runQuery q (boundParams p)),
       [get_connection DATABASE_CONFIG, Event.exec q (boundParams p),
        Event.close])
    ∧ query_to_dataframe env q p =
      (env.runQuery q (boundParams p),
       [get_connection DATABASE_CONFIG, Event.exec q (boundParams p),
        Event.close]) :=
  ⟨execute_query_eq env q p, query_to_dataframe_eq env q p⟩

/-- C9: calling the query helpers with an empty parameter tuple (falsy in
Python) is identical — in result and in trace — to calling them with no
parameters at all: the query is executed without parameter binding. -/
theorem empty_params_like_none (env : Env) (q : String) :
    execute_query env q (some []) = execute_query env q none
    ∧ query_to_dataframe env q (some []) = query_to_dataframe env q none := by
  constructor <;> rfl

/-- C10: the connection factory defaults a missing `read_only` key to
`False` and a missing `config` key to the empty mapping, so a
configuration record supplying neither key still yields a connection to
the configured storage location. -/
theorem missing_config_keys_default (cfg : List (String × ConfigVal))
    (h1 : dictGet cfg "read_only" = none) (h2 : dictGet cfg "config" = none) :
    get_connection cfg =
      Event.connect DATABASE_PATH (ConfigVal.bool false) (ConfigVal.dict []) := by
  simp [get_connection, h1, h2]

/-- Witness for C10 at the empty configuration record. -/
theorem missing_config_keys_default_witness :
    dictGet [] "read_only" = none ∧ dictGet [] "config" = none ∧
      get_connection [] =
        Event.connect DATABASE_PATH (ConfigVal.bool false) (ConfigVal.dict []) :=
  ⟨rfl, rfl, missing_config_keys_default [] rfl rfl⟩

/-- C8: the printing stage of `print_query_results` is a pure formatting
step: it leaves the fetched DataFrame (rows and columns) unchanged and
only appends its lines to the output stream. -/
theorem printer_frame (render : Table → String) (title : Option String)
    (limit : Nat) (s : PrintState) :
    (printResultsOnState render title limit s).df = s.df
    ∧ (printResultsOnState render title limit s).out =
        s.out ++ (titleLines title ++ formatBody render s.df limit ++ [""]) := by
  constructor
  · rfl
  · simp [printResultsOnState]

/-- C7: every exposed operation (`execute_query`, `query_to_dataframe`,
`print_query_results`, `table_info`, `setup_database`) opens exactly one
connection per invocation and closes it before returning: the
connection-event projection of every trace is exactly `[opened, closed]`. -/
theorem single_connection_per_operation :
    (∀ env q p,
      connTags (execute_query env q p).2 = [ConnTag.opened, ConnTag.closed])
    ∧ (∀ env q p,
      connTags (query_to_dataframe env q p).2 = [ConnTag.opened, ConnTag.closed])
    ∧ (∀ env q title limit,
      connTags (print_query_results env q title limit).2 =
        [ConnTag.opened, ConnTag.closed])
    ∧ (∀ env,
      connTags (table_info env).2 = [ConnTag.opened, ConnTag.closed])
    ∧ (∀ env dbp,
      connTags (setup_database env dbp).2 = [ConnTag.opened, ConnTag.closed]) := by
  refine ⟨?_, ?_, ?_, ?_, ?_⟩
  · intro env q p
    rw [execute_query_eq]
    rfl
  · intro env q p
    rw [query_to_dataframe_eq]
    rfl
  · intro env q title limit
    cases hr : env.runQuery q none with
    | error e =>
        simp [print_query_results, query_to_dataframe_none, hr, get_connection,
          connTags_append, connTags_map_print, connTags_cons_connect,
          connTags_cons_exec, connTags_cons_close, connTags_nil]
    | ok df =>
        simp [print_query_results, query_to_dataframe_none, hr, get_connection,
          connTags_append, connTags_map_print, connTags_cons_connect,
          connTags_cons_exec, connTags_cons_close, connTags_cons_print,
          connTags_nil]
  · intro env
    rcases hv : tableInfoLoop env hrTables with ⟨r, evs⟩
    have h := connTags_tableInfoLoop env hrTables
    rw [hv] at h
    simp [table_info, hv, get_connection, connTags_append, connTags_cons_connect,
      connTags_cons_close, connTags_nil, h]
  · intro env dbp
    rcases hs : setupTry env (dbp.getD DATABASE_PATH) with ⟨r, evs⟩
    have h := connTags_setupTry env (dbp.getD DATABASE_PATH)
    rw [hs] at h
    cases r with
    | ok u =>
        simp [setup_database, hs, connTags_append, connTags_cons_connect,
          connTags_cons_close, connTags_cons_print, connTags_nil, h]
    | error e =>
        simp [setup_database, hs, connTags_append, connTags_cons_connect,
          connTags_cons_close, connTags_cons_print, connTags_nil, h]

/-- C1: with the default or any row limit, a result of at most `limit`
rows is printed whole with no truncation message (the trace is exactly
the title block, the fetch, the single rendered table and the blank
line); a result of `limit + k + 1` rows prints the "Showing first" line,
the rendering of exactly the first `limit` rows, and the message stating
the remaining count `k + 1` — for `limit + 1` rows the message
`"... (1 more rows)"`. -/
theorem print_query_results_limit_boundary (env : Env) (q : String)
    (title : Option String) (limit : Nat) (df : Table)
    (h : env.runQuery q none = Except.ok df) :
    (df.rows.length ≤ limit →
      print_query_results env q title limit =
        (Except.ok (),
         (titleLines title).map Event.print ++
           [get_connection DATABASE_CONFIG, Event.exec q none, Event.close] ++
           [Event.print (env.renderTable df), Event.print ""]))
    ∧ (∀ k, df.rows.length = limit + k + 1 →
      print_query_results env q title limit =
        (Except.ok (),
         (titleLines title).map Event.print ++
           [get_connection DATABASE_CONFIG, Event.exec q none, Event.close] ++
           [Event.print ("Showing first " ++ toString limit ++ " of " ++
              toString df.rows.length ++ " rows:"),
            Event.print (env.renderTable (tableHead df limit)),
            Event.print ("... (" ++ toString (k + 1) ++ " more rows)"),
            Event.print ""])) := by
  constructor
  · intro hle
    have hng : ¬ (df.rows.length > limit) := not_lt.mpr hle
    simp [print_query_results, query_to_dataframe_none, h, formatBody, hng]
  · intro k hk
    have hgt : df.rows.length > limit := by omega
    have hsub : df.rows.length - limit = k + 1 := by omega
    simp [print_query_results, query_to_dataframe_none, h, formatBody, hgt,
      hsub]

/-- Witness for C1 at both boundaries: the 3-row result with limit 3
prints whole with no truncation message, and with limit 2 (the
`limit + 1` case, `k = 0`) prints the first 2 rows and the
`"... (1 more rows)"` message. -/
theorem print_query_results_limit_boundary_witness :
    envLoader.runQuery "SELECT * FROM regions" none = Except.ok sampleTable
    ∧ sampleTable.rows.length = 2 + 0 + 1
    ∧ print_query_results envLoader "SELECT * FROM regions" none 3 =
      (Except.ok (),
       [get_connection DATABASE_CONFIG,
        Event.exec "SELECT * FROM regions" none, Event.close,
        Event.print "3",
        Event.print ""])
    ∧ print_query_results envLoader "SELECT * FROM regions" none 2 =
      (Except.ok (),
       [get_connection DATABASE_CONFIG,
        Event.exec "SELECT * FROM regions" none, Event.close,
        Event.print "Showing first 2 of 3 rows:",
        Event.print "2",
        Event.print "... (1 more rows)",
        Event.print ""]) :=
  ⟨rfl, rfl,
   by
    have h :=
      (print_query_results_limit_boundary envLoader "SELECT * FROM regions"
        none 3 sampleTable rfl).1 (by decide)
    simpa using h,
   by
    have h :=
      (print_query_results_limit_boundary envLoader "SELECT * FROM regions"
        none 2 sampleTable rfl).2 0 rfl
    simpa using h⟩

/-- C5: when the engine rejects a query with a QueryError (as it does for
a reference to a non-existent column), every helper re-signals exactly
that QueryError, and no result row is ever printed: the printer's trace
holds nothing beyond the title block and the failed fetch. -/
theorem query_error_propagates_no_rows (env : Env) (q : String)
    (title : Option String) (limit : Nat) (m : String)
    (h : env.runQuery q none = Except.error (Err.queryError m)) :
    (execute_query env q none).1 = Except.error (Err.queryError m)
    ∧ (query_to_dataframe env q none).1 = Except.error (Err.queryError m)
    ∧ print_query_results env q title limit =
        (Except.error (Err.queryError m),
         (titleLines title).map Event.print ++
           [get_connection DATABASE_CONFIG, Event.exec q none, Event.close]) := by
  refine ⟨?_, ?_, ?_⟩
  · rw [execute_query_eq]
    simp [boundParams, paramsTruthy, h, Except.map]
  · rw [query_to_dataframe_none, h]
  · simp [print_query_results, query_to_dataframe_none, h]

/-- Witness for C5 at a concrete environment whose engine rejects the
query naming a non-existent column. -/
theorem query_error_propagates_no_rows_witness :
    envQueryErr.runQuery "SELECT nope FROM employees" none =
      Except.error (Err.queryError "column nope does not exist")
    ∧ (execute_query envQueryErr "SELECT nope FROM employees" none).1 =
      Except.error (Err.queryError "column nope does not exist")
    ∧ print_query_results envQueryErr "SELECT nope FROM employees" none 10 =
      (Except.error (Err.queryError "column nope does not exist"),
       [get_connection DATABASE_CONFIG,
        Event.exec "SELECT nope FROM employees" none, Event.close]) :=
  ⟨rfl,
   (query_error_propagates_no_rows envQueryErr "SELECT nope FROM employees"
      none 10 "column nope does not exist" rfl).1,
   by
    have h :=
      (query_error_propagates_no_rows envQueryErr "SELECT nope FROM employees"
        none 10 "column nope does not exist" rfl).2.2
    simpa using h⟩

/-- Counterexample to C2 as stated: with an unreadable schema file the
loader does signal the FileError, but its trace records a connection
being opened (and closed) — the connection is opened at line 27 of
`setup_database.py`, before the schema file is ever read, so the FileError
is not signalled "before any connection is opened". -/
theorem setup_fileerror_after_connect_counterexample :
    (setup_database envSchemaUnreadable none).1 =
      Except.error (Err.fileError "Permission denied: data/schema.sql")
    ∧ connTags (setup_database envSchemaUnreadable none).2 =
      [ConnTag.opened, ConnTag.closed] := by
  constructor <;> rfl

/-- C2 amended: for every unreadable schema file path, the loader signals
the FileError-class condition before any schema or data statement is
executed against the engine (no `exec` event occurs); the connection —
which the code opens before reading the file — is still closed. -/
theorem setup_fileerror_before_any_exec (env : Env) (dbp : Option String)
    (m : String)
    (h : env.readFile schema_file = Except.error (Err.fileError m)) :
    (setup_database env dbp).1 = Except.error (Err.fileError m)
    ∧ (setup_database env dbp).2.filter isExecEvent = []
    ∧ connTags (setup_database env dbp).2 = [ConnTag.opened, ConnTag.closed] := by
  refine ⟨?_, ?_, ?_⟩
  · simp [setup_database, setupTry, h]
  · simp [setup_database, setupTry, h, isExecEvent, get_connection,
      List.filter_cons, List.filter_append]
  · simp [setup_database, setupTry, h, get_connection, connTags_append,
      connTags_cons_connect, connTags_cons_print, connTags_cons_openFile,
      connTags_cons_close, connTags_nil]

/-- Witness for the amended C2 at a concrete unreadable-schema
environment. -/
theorem setup_fileerror_before_any_exec_witness :
    envSchemaUnreadable.readFile schema_file =
      Except.error (Err.fileError "Permission denied: data/schema.sql")
    ∧ ((setup_database envSchemaUnreadable none).1 =
        Except.error (Err.fileError "Permission denied: data/schema.sql")
      ∧ (setup_database envSchemaUnreadable none).2.filter isExecEvent = []
      ∧ connTags (setup_database envSchemaUnreadable none).2 =
        [ConnTag.opened, ConnTag.closed]) :=
  ⟨rfl, setup_fileerror_before_any_exec envSchemaUnreadable none
    "Permission denied: data/schema.sql" rfl⟩

/-- C3: on every run of the loader the connection-event projection of the
trace is exactly `[opened, closed]` and the very last event is the
`close` (release on every exit path, success or failure); whenever the
run fails, the failure `e` it re-signals to the caller is accompanied by
the printed diagnostic naming that same failure. -/
theorem setup_database_error_cleanup (env : Env) (dbp : Option String) :
    connTags (setup_database env dbp).2 = [ConnTag.opened, ConnTag.closed]
    ∧ (setup_database env dbp).2.getLast? = some Event.close
    ∧ ∀ e, (setup_database env dbp).1 = Except.error e →
        Event.print ("Error setting up database: " ++ errMsg e)
          ∈ (setup_database env dbp).2 := by
  rcases hs : setupTry env (dbp.getD DATABASE_PATH) with ⟨r, evs⟩
  have hct := connTags_setupTry env (dbp.getD DATABASE_PATH)
  rw [hs] at hct
  refine ⟨?_, ?_, ?_⟩
  · cases r with
    | ok u =>
        simp [setup_database, hs, connTags_append, connTags_cons_connect,
          connTags_cons_close, connTags_cons_print, connTags_nil, hct]
    | error e =>
        simp [setup_database, hs, connTags_append, connTags_cons_connect,
          connTags_cons_close, connTags_cons_print, connTags_nil, hct]
  · cases r with
    | ok u =>
        simp only [setup_database, hs]
        rw [List.getLast?_append_cons]
        rfl
    | error e =>
        simp only [setup_database, hs]
        rw [List.getLast?_append_cons]
        rfl
  · intro e he
    cases r with
    | ok u => simp [setup_database, hs] at he
    | error e2 =>
        have he2 : e2 = e := by simpa [setup_database, hs] using he
        subst he2
        simp [setup_database, hs]

/-- Witness for C3: a run whose schema execution fails prints the
diagnostic naming the failure and re-signals it. -/
theorem setup_database_error_cleanup_witness :
    (setup_database envQueryErr none).1 =
      Except.error (Err.queryError "column nope does not exist")
    ∧ Event.print "Error setting up database: column nope does not exist"
        ∈ (setup_database envQueryErr none).2 :=
  ⟨rfl,
   (setup_database_error_cleanup envQueryErr none).2.2
     (Err.queryError "column nope does not exist") rfl⟩

/-- C6: the loader targets the supplied storage location, falling back to
`DATABASE_PATH` from the static configuration when the argument is
omitted; it opens one connection (closed by the end) and its trace begins
with exactly: that connection, the progress prints, the schema file read,
the verbatim execution of the schema text, and then — before anything
else — the data file read and the verbatim execution of the data text. -/
theorem loader_executes_schema_then_data (env : Env) (dbp : Option String)
    (s d : String) (t1 : Table)
    (hs : env.readFile schema_file = Except.ok s)
    (hd : env.readFile data_file = Except.ok d)
    (h1 : env.runQuery s none = Except.ok t1) :
    (∃ rest, (setup_database env dbp).2 =
      [Event.connect (dbp.getD DATABASE_PATH)
         ((dictGet DATABASE_CONFIG "read_only").getD (ConfigVal.bool false))
         ((dictGet DATABASE_CONFIG "config").getD (ConfigVal.dict [])),
       Event.print ("Setting up HR database at: " ++ dbp.getD DATABASE_PATH),
       Event.print "Creating tables...",
       Event.openFile schema_file,
       Event.exec s none,
       Event.print "✓ Tables created successfully",
       Event.print "Loading data...",
       Event.openFile data_file,
       Event.exec d none] ++ rest)
    ∧ connTags (setup_database env dbp).2 = [ConnTag.opened, ConnTag.closed] := by
  have hct := connTags_setupTry env (dbp.getD DATABASE_PATH)
  constructor
  · cases h2 : env.runQuery d none with
    | error e =>
        refine ⟨[Event.print ("Error setting up database: " ++ errMsg e),
                 Event.close], ?_⟩
        simp [setup_database, setupTry, hs, hd, h1, h2]
    | ok t2 =>
        rcases hv : verifyLoop env hrTables with ⟨r, evs⟩
        cases r with
        | ok u =>
            refine ⟨Event.print "✓ Data loaded successfully" ::
              Event.print "\nDatabase setup complete! Record counts:" ::
              evs ++ [Event.close], ?_⟩
            simp [setup_database, setupTry, hs, hd, h1, h2, hv]
        | error e =>
            refine ⟨Event.print "✓ Data loaded successfully" ::
              Event.print "\nDatabase setup complete! Record counts:" ::
              evs ++ [Event.print ("Error setting up database: " ++
                errMsg e), Event.close], ?_⟩
            simp [setup_database, setupTry, hs, hd, h1, h2, hv]
  · rcases hst : setupTry env (dbp.getD DATABASE_PATH) with ⟨r, evs⟩
    rw [hst] at hct
    cases r with
    | ok u =>
        simp [setup_database, hst, connTags_append, connTags_cons_connect,
          connTags_cons_close, connTags_cons_print, connTags_nil, hct]
    | error e =>
        simp [setup_database, hst, connTags_append, connTags_cons_connect,
          connTags_cons_close, connTags_cons_print, connTags_nil, hct]

/-- Witness for C6 at a concrete loader environment, with the storage
location omitted (falling back to the configured `DATABASE_PATH`). -/
theorem loader_executes_schema_then_data_witness :
    envLoader.readFile schema_file = Except.ok "CREATE TABLE regions (a INT);"
    ∧ envLoader.readFile data_file =
        Except.ok "INSERT INTO regions VALUES (1);"
    ∧ envLoader.runQuery "CREATE TABLE regions (a INT);" none =
        Except.ok sampleTable
    ∧ ((∃ rest, (setup_database envLoader none).2 =
        [Event.connect DATABASE_PATH
           ((dictGet DATABASE_CONFIG "read_only").getD (ConfigVal.bool false))
           ((dictGet DATABASE_CONFIG "config").getD (ConfigVal.dict [])),
         Event.print ("Setting up HR database at: " ++ DATABASE_PATH),
         Event.print "Creating tables...",
         Event.openFile schema_file,
         Event.exec "CREATE TABLE regions (a INT);" none,
         Event.print "✓ Tables created successfully",
         Event.print "Loading data...",
         Event.openFile data_file,
         Event.exec "INSERT INTO regions VALUES (1);" none] ++ rest)
      ∧ connTags (setup_database envLoader none).2 =
        [ConnTag.opened, ConnTag.closed]) :=
  ⟨rfl, rfl, rfl,
   loader_executes_schema_then_data envLoader none
     "CREATE TABLE regions (a INT);" "INSERT INTO regions VALUES (1);"
     sampleTable rfl rfl rfl⟩
